import Mathlib

/-!
Shallow embedding of the BookingAutomation repository (Python) in Lean 4.

The embedding covers the pieces the specification's claims are about:

* `src/services/google_sheets.py` — `get_pending_records`,
  `update_record_status`, `update_email_used`, `log_error`; the external
  sheet is modelled as a cell map, the spreadsheet API read as an
  `Except`-valued input (an `Except.error` stands for a raising read).
* `src/services/temp_email_v2.py` — `_extract_otp_from_text` (the five
  regex patterns are implemented as executable matchers with Python
  `re.findall` first-match semantics), `_get_mailtm_otp`, `get_otp`; and
  `src/services/temp_email.py` — `extract_otp_from_email`.
* `src/automation/nusuk_bot.py` — the per-record step pipeline
  (`process_record`), the per-record handling in `run_automation`, the
  manual hand-off steps `create_account` and `verify_email_otp` (the page
  is modelled by the set of selectors that resolve to a displayed element
  plus the page text), the passport section of `fill_initial_info`, and
  the stealth-profile lifecycle (`_create_stealth_profile`,
  `_cleanup_stealth_profile`, the `finally` block of `run_automation`).

Python strings are modelled as `String`/`List Char`; a function that can
raise is given an explicit error channel only where the source's own
`try/except` structure makes the distinction observable.
-/

namespace BookingAutomation

/-! ## String utilities (Python `str.lower`, `in`, truthiness) -/

/-- Lower-case every character, as Python `str.lower()` does on the
ASCII text the sheet holds. -/
def lowerChars (s : List Char) : List Char := s.map Char.toLower

/-- Python `needle in hay` on strings: `needle` occurs as a contiguous
substring of `hay`. -/
def hasSub (needle : List Char) : List Char → Bool
  | [] => needle.isPrefixOf []
  | c :: t => needle.isPrefixOf (c :: t) || hasSub needle t

/-! ## `google_sheets.py`: `get_pending_records` and the cell writers -/

/-- Test from `get_pending_records` line 97 of `google_sheets.py`:
`if header and 'status' in header.lower()` — the header cell is truthy
(non-empty) and contains "status" case-insensitively. -/
def statusHeaderHit (h : String) : Bool :=
  (h != "") && hasSub ("status".data) (lowerChars h.data)

/-- Index of the first header cell passing `statusHeaderHit`, scanning
with `enumerate` as the source loop does (lines 95–100). -/
def findStatusIdx : List String → Nat → Option Nat
  | [], _ => none
  | h :: rest, i =>
    if statusHeaderHit h then some i else findStatusIdx rest (i + 1)

/-- Python dict assignment `record_data[key] = value`: replace the value
of an existing key, otherwise append the binding. -/
def dictSet (d : List (String × String)) (k v : String) : List (String × String) :=
  if d.any (fun p => p.1 == k) then
    d.map (fun p => if p.1 == k then (k, v) else p)
  else d ++ [(k, v)]

/-- Build `record_data` from a row (lines 114–119): pair each cell with
its header, or with `Column_{i+1}` past the headers. -/
def buildRecordData (headers : List String) : List String → Nat → List (String × String) → List (String × String)
  | [], _, d => d
  | v :: vs, i, d =>
    let key :=
      match headers[i]? with
      | some h => h
      | none => "Column_" ++ toString (i + 1)
    buildRecordData headers vs (i + 1) (dictSet d key v)

/-- One element of the list `get_pending_records` returns: a dict with
`row_number` and `data` (lines 121–124). -/
structure PendingRecord where
  row_number : Nat
  data : List (String × String)
deriving DecidableEq, Repr

/-- Row loop of `get_pending_records` (lines 108–126): rows are numbered
from 2; a row is kept when it is long enough to hold the status column
and that cell is truthy and lower-cases to "pending". -/
def collectPending (headers : List String) (idx : Nat) : List (List String) → Nat → List PendingRecord
  | [], _ => []
  | row :: rest, rowIdx =>
    let keep :=
      match row[idx]? with
      | some status => (status != "") && (lowerChars status.data == "pending".data)
      | none => false
    if keep then
      ⟨rowIdx, buildRecordData headers row 0 []⟩ :: collectPending headers idx rest (rowIdx + 1)
    else
      collectPending headers idx rest (rowIdx + 1)

/-- Body of `GoogleSheetsService.get_pending_records` (lines 85–129),
given the values the spreadsheet read returned: empty values yield `[]`;
a missing status column yields `[]`; otherwise the pending rows. -/
def get_pending_records (values : List (List String)) : List PendingRecord :=
  match values with
  | [] => []
  | headers :: rows =>
    match findStatusIdx headers 0 with
    | none => []
    | some idx => collectPending headers idx rows 2

/-- Whole `get_pending_records` including its `try/except` (lines 76 and
131–133): the spreadsheet read is the `Except`-valued input (`.error e`
models the read raising `e`); the `except Exception` branch logs and
`return []`, so the function itself never propagates an error. -/
def get_pending_records_outer (readResult : Except String (List (List String))) :
    Except String (List PendingRecord) :=
  match readResult with
  | Except.error _ => Except.ok []
  | Except.ok values => Except.ok (get_pending_records values)

/-- External sheet state: what each cell (column letter, row number)
holds, `none` for a never-written cell. -/
def SheetState : Type := Char × Nat → Option String

/-- One `values().update` call on a single cell. -/
def writeCell (s : SheetState) (c : Char) (row : Nat) (v : String) : SheetState :=
  fun p => if p = (c, row) then some v else s p

/-- `update_record_status` (lines 135–158): overwrite column H of the
given row with the status string. -/
def update_record_status (s : SheetState) (row : Nat) (status : String) : SheetState :=
  writeCell s 'H' row status

/-- `log_error` (lines 198–221): overwrite column N of the given row
with the error message. -/
def log_error (s : SheetState) (row : Nat) (msg : String) : SheetState :=
  writeCell s 'N' row msg

/-- `update_email_used` (lines 246–269): overwrite column M of the given
row with the email. -/
def update_email_used (s : SheetState) (row : Nat) (email : String) : SheetState :=
  writeCell s 'M' row email

/-! ## `temp_email_v2.py` / `temp_email.py`: OTP extraction

The Python code runs `re.findall(pattern, text, re.IGNORECASE)` for each
of five patterns and takes the first match.  Only the first match is
ever used, so each pattern is embedded as a leftmost-search function
returning what `matches[0]` would be: the whole match for the groupless
pattern 1, group 1 for patterns 2–5. -/

/-- Python regex `\w` on the ASCII texts involved: letters, digits and
underscore. -/
def isWordChar (c : Char) : Bool := c.isAlphanum || c == '_'

/-- The first four characters exist and are decimal digits:
`\d{4}` anchored at the start of `s`. -/
def startsWithFourDigits (s : List Char) : Bool :=
  ((s.take 4).length == 4) && (s.take 4).all Char.isDigit

/-- Some suffix of `s` starts with four decimal digits, i.e. `s`
contains a run of at least four consecutive digits. -/
def hasRun4 : List Char → Bool
  | [] => false
  | c :: t => startsWithFourDigits (c :: t) || hasRun4 t

/-- Lengths of the maximal runs of consecutive decimal digits in a
string (accumulator = length of the run in progress). -/
def runsAux : List Char → Nat → List Nat
  | [], acc => if acc == 0 then [] else [acc]
  | c :: t, acc =>
    if c.isDigit then runsAux t (acc + 1)
    else if acc == 0 then runsAux t 0 else acc :: runsAux t 0

/-- Lengths of the maximal digit runs of `s` ("digit runs" in the
spec's sense: a maximal block of consecutive digits). -/
def digitRunLengths (s : List Char) : List Nat := runsAux s 0

/-- Attempt `\d{k}` at the start of `s`: the first `k` characters when
they exist and are all digits. -/
def tryDigits (s : List Char) (k : Nat) : Option (List Char) :=
  let pre := s.take k
  if (pre.length == k) && pre.all Char.isDigit then some pre else none

/-- Word boundary `\b` after `k` leading digits of `s`: end of string or
a non-word character next (the character before position `k` is a
digit, hence a word character). -/
def boundaryAfter (s : List Char) (k : Nat) : Bool :=
  match s.drop k with
  | [] => true
  | c :: _ => !isWordChar c

/-- One backtracking step of `\d{4,6}\b` at the start of `s`: exactly
`k` digits followed by a word boundary. -/
def p1Try (s : List Char) (k : Nat) : Option (List Char) :=
  match tryDigits s k with
  | some d => if boundaryAfter s k then some d else none
  | none => none

/-- Match of pattern 1 `\b\d{4,6}\b` anchored at the current position.
`prevIsWord` tells whether the character before the position is a word
character (the leading `\b` fails when it is, since `\d` needs a word
character right after the boundary); the quantifier is greedy, so six
digits are tried first, then five, then four. -/
def matchP1At (prevIsWord : Bool) (s : List Char) : Option (List Char) :=
  if prevIsWord then none
  else
    match p1Try s 6 with
    | some d => some d
    | none =>
      match p1Try s 5 with
      | some d => some d
      | none => p1Try s 4

/-- Leftmost match of pattern 1: try each position in turn, carrying the
word-character status of the previous character. -/
def searchP1 : Bool → List Char → Option (List Char)
  | _, [] => none
  | pw, c :: t =>
    match matchP1At pw (c :: t) with
    | some m => some m
    | none => searchP1 (isWordChar c) t

/-- First element of `re.findall` for pattern 1 `\b\d{4,6}\b` (at the
start of the text no character precedes, so there is no word character
before the first position). -/
def findP1 (s : List Char) : Option (List Char) := searchP1 false s

/-- Strip a literal keyword case-insensitively (`re.IGNORECASE`) from
the front of `s`, returning the rest. -/
def stripKw : List Char → List Char → Option (List Char)
  | [], s => some s
  | _ :: _, [] => none
  | k :: ks, c :: cs =>
    if k.toLower == c.toLower then stripKw ks cs else none

/-- Match of `KW[:\s]*(\d{4,6})` anchored at the current position: the
keyword case-insensitively, then a greedy run of colons/whitespace
(digits are not in the class, so greedy = take all), then group 1 = up
to six digits, at least four (greedy, no constraint after the group). -/
def matchKwAt (kw : List Char) (s : List Char) : Option (List Char) :=
  match stripKw kw s with
  | none => none
  | some rest =>
    let rest2 := rest.dropWhile (fun c => (c == ':') || c.isWhitespace)
    let grp := (rest2.takeWhile Char.isDigit).take 6
    if 4 ≤ grp.length then some grp else none

/-- Leftmost match (group 1) of `KW[:\s]*(\d{4,6})`, as the first
element of `re.findall` for patterns 2–4. -/
def searchKw (kw : List Char) : List Char → Option (List Char)
  | [] => matchKwAt kw []
  | c :: t =>
    match matchKwAt kw (c :: t) with
    | some m => some m
    | none => searchKw kw t

/-- Match of pattern 5 `(\d{4,6})` anchored at the current position:
greedily up to six digits, at least four. -/
def matchP5At (s : List Char) : Option (List Char) :=
  let grp := (s.takeWhile Char.isDigit).take 6
  if 4 ≤ grp.length then some grp else none

/-- Leftmost match (group 1) of pattern 5 `(\d{4,6})`. -/
def searchP5 : List Char → Option (List Char)
  | [] => none
  | c :: t =>
    match matchP5At (c :: t) with
    | some m => some m
    | none => searchP5 t

/-- Guard at line 299 of `temp_email_v2.py`:
`len(otp) >= 4 and len(otp) <= 6 and otp.isdigit()`. -/
def otpCheck (m : List Char) : Bool :=
  decide (4 ≤ m.length) && decide (m.length ≤ 6) && m.all Char.isDigit

/-- The five patterns of `otp_patterns` (identical lists at
`temp_email_v2.py` lines 286–292 and `temp_email.py` lines 133–139), as
first-findall-match functions. -/
def otp_patterns : List (List Char → Option (List Char)) :=
  [findP1, searchKw ("OTP".data), searchKw ("verification".data),
    searchKw ("code".data), searchP5]

/-- Pattern loop of `_extract_otp_from_text` (lines 294–302): for each
pattern in order, if it has matches take the first; return it when the
guard passes, otherwise fall through to the next pattern; `None` after
the last. -/
def extract_scan : List (List Char → Option (List Char)) → List Char → Option (List Char)
  | [], _ => none
  | p :: ps, text =>
    match p text with
    | some otp => if otpCheck otp then some otp else extract_scan ps text
    | none => extract_scan ps text

/-- `TempEmailServiceV2._extract_otp_from_text` (lines 282–306). -/
def _extract_otp_from_text (text : List Char) : Option (List Char) :=
  extract_scan otp_patterns text

/-- Pattern loop of `TempEmailService.extract_otp_from_email`
(`temp_email.py` lines 142–147): same patterns, but the first match is
returned with no guard. -/
def firstMatchScan : List (List Char → Option (List Char)) → List Char → Option (List Char)
  | [], _ => none
  | p :: ps, text =>
    match p text with
    | some otp => some otp
    | none => firstMatchScan ps text

/-- `TempEmailService.extract_otp_from_email` (lines 124–162): search
the body first, then the subject. -/
def extract_otp_from_email (body subject : List Char) : Option (List Char) :=
  match firstMatchScan otp_patterns body with
  | some otp => some otp
  | none => firstMatchScan otp_patterns subject

/-- Message loop of `_get_mailtm_otp` (lines 228–251): for each of the
first five messages, extract from `text + ' ' + html` content; first
hit wins. -/
def firstOtp : List (List Char × List Char) → Option (List Char)
  | [] => none
  | (t, h) :: rest =>
    match _extract_otp_from_text (t ++ ' ' :: h) with
    | some otp => some otp
    | none => firstOtp rest

/-- `TempEmailServiceV2._get_mailtm_otp` (lines 197–258), given the
fetched message contents (text, html) in inbox order. -/
def _get_mailtm_otp (msgs : List (List Char × List Char)) : Option (List Char) :=
  firstOtp (msgs.take 5)

/-- `TempEmailServiceV2.get_otp` (lines 172–195): the Mail.tm path calls
`_get_mailtm_otp`; the fallbacks `_try_10minutemail_otp` and
`_try_tempmail_otp` (lines 260–280) both return `None`, so every other
path yields `None`. -/
def get_otp (usesMailtm : Bool) (msgs : List (List Char × List Char)) : Option (List Char) :=
  if usesMailtm then _get_mailtm_otp msgs else none

/-! ## `nusuk_bot.py`: the per-record step pipeline -/

/-- The seven steps `process_record` invokes in order (lines 1546–1574):
navigate, switch-language, select-guest-type, fill-identity-fields,
fill-personal-fields, create-account, verify-otp. -/
inductive Step where
  | nav
  | lang
  | guest
  | fillInitial
  | fillPersonal
  | createAcct
  | verifyOtp
deriving DecidableEq, Repr

/-- The fixed pipeline order of `process_record`. -/
def pipeline : List Step :=
  [Step.nav, Step.lang, Step.guest, Step.fillInitial, Step.fillPersonal,
    Step.createAcct, Step.verifyOtp]

/-- Run the steps in order, mirroring `if not self.step(): return False`:
each reached step is invoked (recorded in the returned list) and a
failing step stops the sequence.  `env` gives the outcome each step
would produce if invoked. -/
def runSteps (env : Step → Bool) : List Step → Bool × List Step
  | [] => (true, [])
  | s :: rest =>
    if env s then
      let r := runSteps env rest
      (r.1, s :: r.2)
    else (false, [s])

/-- Step sequence of `NusukBot.process_record` (lines 1546–1574): the
boolean result and the list of steps actually invoked. -/
def processRecordSteps (env : Step → Bool) : Bool × List Step :=
  runSteps env pipeline

/-- `NusukBot.process_record` (lines 1538–1589) without its
`except` clause (every step catches its own exceptions and returns a
boolean, so on the no-selector-resolves paths no exception escapes): on
success write status "In Progress" to column H and, `current_email`
having been set to "MANUAL_INPUT_COMPLETED" by `create_account`
(lines 1372, 1380), the email to column M; on failure return `False`
with no sheet write. -/
def process_record (env : Step → Bool) (row : Nat) (s : SheetState) :
    Bool × List Step × SheetState :=
  let r := processRecordSteps env
  if r.1 then
    let s1 := update_record_status s row "In Progress"
    let s2 := update_email_used s1 row "MANUAL_INPUT_COMPLETED"
    (true, r.2, s2)
  else (false, r.2, s)

/-- Per-record body of `NusukBot.run_automation` (lines 1609–1619, the
non-exception path): process the record and, when processing returned
`False`, write status "Failed" to column H.  `log_error` is invoked only
in the `except` branches (lines 1588, 1624), which a step returning
`False` does not reach. -/
def handle_record (env : Step → Bool) (row : Nat) (s : SheetState) :
    Bool × List Step × SheetState :=
  let r := process_record env row s
  if r.1 then r
  else (r.1, r.2.1, update_record_status r.2.2 row "Failed")

/-! ## `nusuk_bot.py`: the manual hand-off steps -/

/-- Page abstraction for the two manual steps: the selectors that
resolve to a displayed element, and the lower-cased page source text. -/
structure Page where
  displayed : List String
  pageText : String

/-- Success indicators probed by `create_account` (lines 1329–1339). -/
def accountSuccessIndicators : List String :=
  ["//div[contains(text(), 'success')]",
    "//div[contains(text(), 'Success')]",
    "//div[contains(text(), 'Account created')]",
    "//div[contains(text(), 'Verification')]",
    "//div[contains(text(), 'OTP')]",
    "//div[contains(text(), 'verification code')]",
    "//input[@name='otp']",
    "//input[@placeholder*='OTP']",
    "//input[@placeholder*='verification']"]

/-- `NusukBot.create_account` (lines 1302–1385) after the fixed 15 s
wait: probe the success indicators (the error probe at lines 1354–1367
only logs), then return `True` in both the found and the not-found
branch, setting `current_email` to the placeholder. -/
def create_account (pg : Page) : Bool × Option String :=
  let success_found := accountSuccessIndicators.any (fun sel => pg.displayed.contains sel)
  if success_found then (true, some "MANUAL_INPUT_COMPLETED")
  else (true, some "MANUAL_INPUT_COMPLETED")

/-- OTP-field selectors probed by `verify_email_otp` (lines 1436–1448). -/
def otpFieldSelectors : List String :=
  ["//input[@name='otp']",
    "//input[@name='verification_code']",
    "//input[@name='code']",
    "//input[@id='otp']",
    "//input[@id='verification_code']",
    "//input[@id='code']",
    "#otp",
    "#verification_code",
    "#code",
    "[data-field='otp']",
    "[data-field='verification_code']"]

/-- Success indicators probed after the OTP wait (lines 1501–1510). -/
def otpSuccessIndicators : List String :=
  ["//div[contains(text(), 'success')]",
    "//div[contains(text(), 'Success')]",
    "//div[contains(text(), 'verified')]",
    "//div[contains(text(), 'Verification successful')]",
    "//div[contains(text(), 'Account activated')]",
    "//button[contains(text(), 'Continue')]",
    "//button[contains(text(), 'Next')]",
    "//a[contains(text(), 'Continue')]"]

/-- `NusukBot.verify_email_otp` (lines 1424–1536).  When no OTP field is
found: `False` if the page text holds "error" or "failed", else `True`
(both the success-text branch at line 1477 and the undetermined branch
at line 1480).  When an OTP field is found: the fixed 20 s wait, then
the success probe, then `True` whether or not an indicator was found
(lines 1523–1527). -/
def verify_email_otp (pg : Page) : Bool :=
  let otp_field_found := otpFieldSelectors.any (fun sel => pg.displayed.contains sel)
  if !otp_field_found then
    if hasSub ("error".data) (lowerChars pg.pageText.data) ||
        hasSub ("failed".data) (lowerChars pg.pageText.data) then false
    else if hasSub ("success".data) (lowerChars pg.pageText.data) ||
        hasSub ("verification".data) (lowerChars pg.pageText.data) then true
    else true
  else
    let success_found := otpSuccessIndicators.any (fun sel => pg.displayed.contains sel)
    if success_found then true else true

/-! ## `nusuk_bot.py`: passport section of `fill_initial_info` -/

/-- Passport-field selectors (lines 930–938). -/
def passportSelectors : List String :=
  ["//input[@placeholder='Passport Number']",
    "//input[contains(@placeholder, 'Passport')]",
    "//input[@name='passport']",
    "//input[@id='passport']",
    "#passport-number",
    "[data-field='passport']"]

/-- Python `record_data.get(key, '')`. -/
def getField (rd : List (String × String)) (k : String) : String :=
  match rd.lookup k with
  | some v => v
  | none => ""

/-- Python `a or b` on strings: the first operand when non-empty
(truthy), otherwise the second. -/
def pyOr (a b : String) : String := if a == "" then b else a

/-- The passport value lookup chain of lines 956–963. -/
def passport_number (rd : List (String × String)) : String :=
  pyOr (pyOr (pyOr (pyOr (pyOr (getField rd "Passport NO")
    (getField rd "PASSPORT NO"))
    (getField rd "Passport Number"))
    (getField rd "PASSPORT NUMBER"))
    (getField rd "Passport"))
    (getField rd "PASSPORT")

/-- Passport section of `fill_initial_info` (lines 940–987): the first
resolving selector is used; a non-empty looked-up passport number is
typed, otherwise the hard-coded default "AB315033" (lines 967–977);
`passport_filled` stays `False` (and the step returns `False` at
line 986) only when no selector resolves.  Result: (`passport_filled`,
the value typed into the field). -/
def fillPassportSection (resolving : List String) (rd : List (String × String)) :
    Bool × Option String :=
  match passportSelectors.find? (fun sel => resolving.contains sel) with
  | none => (false, none)
  | some _ =>
    let pn := passport_number rd
    if pn != "" then (true, some pn) else (true, some "AB315033")

/-! ## `nusuk_bot.py`: stealth-profile lifecycle -/

/-- Resource state of the bot process: the temporary profile directories
that exist on disk (by identifier), the directory recorded in
`self.temp_dir` (if the attribute was set), and whether the browser
session is open. -/
structure BotState where
  dirs : List Nat
  tempDir : Option Nat
  driverOpen : Bool
deriving DecidableEq, Repr

/-- `NusukBot._create_stealth_profile` (lines 1662–1766) with the file
writes abstracted by `writesOk`: `tempfile.mkdtemp` creates directory
`d` on disk; when the subsequent directory/file writes succeed,
`self.temp_dir` is recorded (line 1760) and the path returned; when one
of them raises, the `except` at line 1764 returns `None` — the
directory `d` exists but `self.temp_dir` was never set. -/
def _create_stealth_profile (writesOk : Bool) (d : Nat) (st : BotState) :
    BotState × Option Nat :=
  let st1 : BotState := { st with dirs := st.dirs ++ [d] }
  if writesOk then ({ st1 with tempDir := some d }, some d)
  else (st1, none)

/-- `NusukBot._cleanup_stealth_profile` (lines 1768–1776):
`shutil.rmtree(self.temp_dir, ignore_errors=True)` when the `temp_dir`
attribute is set and truthy, otherwise nothing. -/
def _cleanup_stealth_profile (st : BotState) : BotState :=
  match st.tempDir with
  | some d => { st with dirs := st.dirs.erase d }
  | none => st

/-- Driver setup on the Chrome paths (lines 149–153, 253–257): create
the stealth profile, then open the browser session. -/
def setup_driver (writesOk : Bool) (d : Nat) (st : BotState) : BotState :=
  let r := _create_stealth_profile writesOk d st
  { r.1 with driverOpen := true }

/-- Outcome of the `try` body of `run_automation`: it either completes
normally or raises, and in the raising case the `except Exception` at
line 1628 catches before the `finally` runs.  Neither outcome touches
the profile directories or the driver handle. -/
inductive RunBody where
  | normal
  | raises
deriving DecidableEq, Repr

/-- `NusukBot.run_automation` (lines 1591–1636) restricted to the
resource state: driver setup, the body (whose outcome does not change
the resource state), then the `finally` block — quit the driver when
one is open, then `_cleanup_stealth_profile`. -/
def run_automation (writesOk : Bool) (d : Nat) (body : RunBody) (st : BotState) : BotState :=
  let st1 := setup_driver writesOk d st
  let _ := body
  let st2 := if st1.driverOpen then { st1 with driverOpen := false } else st1
  _cleanup_stealth_profile st2

/-! ## Concrete instances used by witnesses and counterexamples -/

/-- Step-outcome environment in which the guest-type selection step
fails (no selector resolves, `select_foreign_guest` returns `False`)
and every other step would succeed. -/
def envGuestFails : Step → Bool
  | Step.guest => false
  | _ => true

/-- A sheet on which no cell has ever been written. -/
def emptySheet : SheetState := fun _ => none

/-- A freshly constructed bot: no profile directory, no recorded
`temp_dir`, no open driver. -/
def initialBot : BotState := ⟨[], none, false⟩

/-- A page showing nothing of interest: no selector resolves and the
page text is empty. -/
def blankPage : Page := ⟨[], ""⟩

/-- A page on which only the `#otp` field selector resolves. -/
def otpFieldPage : Page := ⟨["#otp"], ""⟩

/-! ## Helper lemmas -/

/-- Cell writes are idempotent pointwise. -/
theorem writeCell_writeCell (s : SheetState) (c : Char) (row : Nat) (v : String) :
    writeCell (writeCell s c row v) c row v = writeCell s c row v := by
  funext p
  by_cases h : p = (c, row) <;> simp [writeCell, h]

/-- A header scan over cells none of which hits finds no status column. -/
theorem findStatusIdx_eq_none (hs : List String) (i : Nat)
    (h : ∀ x ∈ hs, statusHeaderHit x = false) : findStatusIdx hs i = none := by
  induction hs generalizing i with
  | nil => rfl
  | cons a t ih =>
    have ha : statusHeaderHit a = false := h a (by simp)
    simp only [findStatusIdx, ha, Bool.false_eq_true, if_false]
    exact ih (i + 1) (fun x hx => h x (by simp [hx]))

end BookingAutomation

namespace BookingAutomation

/-- C3: the claim says a raising spreadsheet read makes
`get_pending_records` fail with a `SourceUnavailable` error that is
fatal to the run.  In the code the `except Exception` branch
(`google_sheets.py` lines 131–133) catches the raised exception, logs
it and returns `[]`: the read-failure outcome is the value `.ok []`,
indistinguishable from the no-matching-rows outcome, and no error
propagates. -/
theorem C3_read_failure_counterexample :
    get_pending_records_outer (Except.error "HttpError 503") = Except.ok [] ∧
    (get_pending_records_outer (Except.error "HttpError 503")).isOk = true :=
  ⟨rfl, rfl⟩

/-- C3 (amended): when the backing spreadsheet read raises,
`get_pending_records` catches the exception and returns an empty
sequence — the same `.ok []` value the no-matching-rows case yields —
rather than failing with an error. -/
theorem C3_read_failure_returns_empty (e : String) :
    get_pending_records_outer (Except.error e) = Except.ok [] := rfl

/-- C6: for every sheet whose header row contains no cell matching
"status" by case-insensitive substring match, `get_pending_records`
returns the empty sequence (the embedding is a total function and the
missing-column path of the source returns `[]` before any raising
operation). -/
theorem C6_no_status_header_yields_empty (values : List (List String))
    (h : ∀ x ∈ values.headD [], statusHeaderHit x = false) :
    get_pending_records values = [] := by
  cases values with
  | nil => rfl
  | cons headers rows =>
    have h2 : ∀ x ∈ headers, statusHeaderHit x = false := by
      simpa using h
    simp [get_pending_records, findStatusIdx_eq_none headers 0 h2]

/-- C6 witness: a concrete sheet with headers "Name", "Email" and a
pending-looking row yields the empty sequence. -/
theorem C6_witness :
    get_pending_records [["Name", "Email"], ["x", "pending"]] = [] :=
  C6_no_status_header_yields_empty [["Name", "Email"], ["x", "pending"]] (by decide)

/-- C7: `update_record_status`, `update_email_used` and `log_error` are
each independently idempotent — calling one twice with the same row and
value leaves the external cell state identical to calling it once. -/
theorem C7_sink_writes_idempotent :
    (∀ (s : SheetState) (row : Nat) (status : String),
      update_record_status (update_record_status s row status) row status
        = update_record_status s row status) ∧
    (∀ (s : SheetState) (row : Nat) (email : String),
      update_email_used (update_email_used s row email) row email
        = update_email_used s row email) ∧
    (∀ (s : SheetState) (row : Nat) (msg : String),
      log_error (log_error s row msg) row msg = log_error s row msg) :=
  ⟨fun s row v => writeCell_writeCell s 'H' row v,
    fun s row v => writeCell_writeCell s 'M' row v,
    fun s row v => writeCell_writeCell s 'N' row v⟩

/-- C5: for both manual hand-off steps, when the probe after the fixed
wall-clock wait finds no success indicator, the step still returns
success.  For `create_account` the result is `True` with the
placeholder email in both probe outcomes; for `verify_email_otp`, when
an OTP field was found (so the manual wait ran) and no success
indicator is displayed afterwards, the result is `True`. -/
theorem C5_manual_steps_default_success :
    (∀ pg : Page, (∀ sel ∈ accountSuccessIndicators, pg.displayed.contains sel = false) →
      create_account pg = (true, some "MANUAL_INPUT_COMPLETED")) ∧
    (∀ pg : Page,
      otpFieldSelectors.any (fun sel => pg.displayed.contains sel) = true →
      (∀ sel ∈ otpSuccessIndicators, pg.displayed.contains sel = false) →
      verify_email_otp pg = true) := by
  constructor
  · intro pg _h
    simp only [create_account]
    split <;> rfl
  · intro pg hfound _hns
    simp only [verify_email_otp, hfound, Bool.not_true, Bool.false_eq_true, if_false]
    split <;> rfl

/-- C5 witness: on a blank page `create_account` succeeds with the
placeholder email, and on a page showing only the OTP input field
`verify_email_otp` succeeds. -/
theorem C5_witness :
    create_account blankPage = (true, some "MANUAL_INPUT_COMPLETED") ∧
    verify_email_otp otpFieldPage = true :=
  ⟨C5_manual_steps_default_success.1 blankPage (by decide),
    C5_manual_steps_default_success.2 otpFieldPage (by decide) (by decide)⟩

/-- C10: when some passport-field selector resolves and every
passport-related column (Passport NO, PASSPORT NO, Passport Number,
PASSPORT NUMBER, Passport, PASSPORT) is empty or absent, the passport
section reports the field as filled and types the hard-coded default
passport number "AB315033". -/
theorem C10_default_passport (resolving : List String) (rd : List (String × String))
    (hsel : ∃ sel ∈ passportSelectors, resolving.contains sel = true)
    (hempty : ∀ k ∈ ["Passport NO", "PASSPORT NO", "Passport Number",
      "PASSPORT NUMBER", "Passport", "PASSPORT"], getField rd k = "") :
    fillPassportSection resolving rd = (true, some "AB315033") := by
  have hpn : passport_number rd = "" := by
    simp [passport_number, pyOr,
      hempty "Passport NO" (by simp), hempty "PASSPORT NO" (by simp),
      hempty "Passport Number" (by simp), hempty "PASSPORT NUMBER" (by simp),
      hempty "Passport" (by simp), hempty "PASSPORT" (by simp)]
  obtain ⟨sel, hmem, hres⟩ := hsel
  cases hf : passportSelectors.find? (fun s => resolving.contains s) with
  | none =>
    exact absurd hres (List.find?_eq_none.mp hf sel hmem)
  | some found =>
    unfold fillPassportSection
    rw [hf]
    simp [hpn]

/-- C10 witness: the `#passport-number` selector resolves and the
record has no passport data at all. -/
theorem C10_witness :
    fillPassportSection ["#passport-number"] [] = (true, some "AB315033") :=
  C10_default_passport ["#passport-number"] []
    ⟨"#passport-number", by decide, by decide⟩ (by decide)

/-- A step whose environment outcome is `false` forces the whole step
sequence to return `false`, wherever it sits in the list. -/
theorem runSteps_fail_result (l : List Step) (env : Step → Bool) (k : Nat)
    (hk : k < l.length) (h : env (l.get ⟨k, hk⟩) = false) :
    (runSteps env l).1 = false := by
  induction l generalizing k with
  | nil => exact absurd hk (by simp)
  | cons s rest ih =>
    by_cases hs : env s
    · cases k with
      | zero => simp only [List.get] at h; rw [h] at hs; exact absurd hs (by simp)
      | succ k2 =>
        simp only [runSteps, hs, if_true]
        exact ih k2 (Nat.lt_of_succ_lt_succ hk) h
    · simp [runSteps, hs]

/-- In a duplicate-free step list, when the step at position `k` would
fail, no step strictly after position `k` is ever invoked. -/
theorem runSteps_fail_not_invoked (l : List Step) (env : Step → Bool) (hnd : l.Nodup)
    (k j : Nat) (hk : k < l.length) (hj : j < l.length) (hkj : k < j)
    (h : env (l.get ⟨k, hk⟩) = false) :
    l.get ⟨j, hj⟩ ∉ (runSteps env l).2 := by
  induction l generalizing k j with
  | nil => exact absurd hk (by simp)
  | cons s rest ih =>
    obtain ⟨hs_not, hnd2⟩ := List.nodup_cons.mp hnd
    cases j with
    | zero => exact absurd hkj (by omega)
    | succ j2 =>
      have hj2 : j2 < rest.length := Nat.lt_of_succ_lt_succ hj
      have hne : rest.get ⟨j2, hj2⟩ ≠ s := by
        intro he
        exact hs_not (he ▸ List.get_mem rest j2 hj2)
      by_cases hs : env s
      · cases k with
        | zero => simp only [List.get] at h; rw [h] at hs; exact absurd hs (by simp)
        | succ k2 =>
          simp only [runSteps, hs, if_true, List.get]
          intro hmem
          rcases List.mem_cons.mp hmem with he | hmem2
          · exact hne he
          · exact ih hnd2 k2 j2 (Nat.lt_of_succ_lt_succ hk) hj2
              (Nat.lt_of_succ_lt_succ hkj) h hmem2
      · simp only [runSteps, hs, Bool.false_eq_true, if_false, List.get]
        intro hmem
        exact hne (List.mem_singleton.mp hmem)

/-- C2: for every step-outcome environment and every index `k` of the
fixed seven-step pipeline, if the step at position `k` returns failure
then the per-record processing result is failure and no step at a
position after `k` is invoked. -/
theorem C2_short_circuit (env : Step → Bool) (k : Nat) (hk : k < pipeline.length)
    (h : env (pipeline.get ⟨k, hk⟩) = false) :
    (processRecordSteps env).1 = false ∧
    ∀ (j : Nat) (hj : j < pipeline.length), k < j →
      pipeline.get ⟨j, hj⟩ ∉ (processRecordSteps env).2 :=
  ⟨runSteps_fail_result pipeline env k hk h,
    fun j hj hkj => runSteps_fail_not_invoked pipeline env (by decide) k j hk hj hkj h⟩

/-- C2 witness: with the guest-type step (position 2) failing, the
processing result is failure and the last step (verify-otp, position 6)
is never invoked. -/
theorem C2_witness :
    (processRecordSteps envGuestFails).1 = false ∧
    Step.verifyOtp ∉ (processRecordSteps envGuestFails).2 :=
  ⟨(C2_short_circuit envGuestFails 2 (by decide) (by decide)).1,
    (C2_short_circuit envGuestFails 2 (by decide) (by decide)).2 6 (by decide) (by decide)⟩

/-- C1: the claim says a guest-type selection failure yields a run
outcome with final status Failed AND a non-empty error detail.  On the
concrete run (row 5, empty sheet, guest-type step failing because no
selector resolves, i.e. `select_foreign_guest` returns `False` without
raising), column H receives "Failed" but the error-detail column N is
never written: `log_error` is called only from the `except` branches,
which a step returning `False` does not reach.  The invoked steps stop
at the guest-type step, so no field is typed and no account created. -/
theorem C1_counterexample :
    (handle_record envGuestFails 5 emptySheet).2.2 ('H', 5) = some "Failed" ∧
    (handle_record envGuestFails 5 emptySheet).2.2 ('N', 5) = none ∧
    (handle_record envGuestFails 5 emptySheet).2.1 =
      [Step.nav, Step.lang, Step.guest] :=
  ⟨rfl, rfl, rfl⟩

/-- C1 (amended): for every run in which navigation and language switch
succeed and the guest-type selection step fails because no selector
resolves, the run writes final status "Failed" for that row, invokes no
subsequent step (the invoked list stops at the guest-type step — no
fields typed, no account created), and writes nothing to the
error-detail column N or the email column M: a non-empty error detail
is recorded only when an exception escapes a step, not on this
returns-failure path. -/
theorem C1_guest_failure_marks_failed (env : Step → Bool) (row : Nat) (s0 : SheetState)
    (h1 : env Step.nav = true) (h2 : env Step.lang = true)
    (h3 : env Step.guest = false) :
    (handle_record env row s0).1 = false ∧
    (handle_record env row s0).2.1 = [Step.nav, Step.lang, Step.guest] ∧
    (handle_record env row s0).2.2 ('H', row) = some "Failed" ∧
    (handle_record env row s0).2.2 ('N', row) = s0 ('N', row) ∧
    (handle_record env row s0).2.2 ('M', row) = s0 ('M', row) := by
  have hsteps : processRecordSteps env = (false, [Step.nav, Step.lang, Step.guest]) := by
    simp [processRecordSteps, pipeline, runSteps, h1, h2, h3]
  refine ⟨?_, ?_, ?_, ?_, ?_⟩ <;>
    simp [handle_record, process_record, hsteps, update_record_status, writeCell]

/-- C1 amended-claim witness: the concrete guest-failure run at row 5
on the empty sheet. -/
theorem C1_witness :
    (handle_record envGuestFails 5 emptySheet).1 = false ∧
    (handle_record envGuestFails 5 emptySheet).2.1 =
      [Step.nav, Step.lang, Step.guest] ∧
    (handle_record envGuestFails 5 emptySheet).2.2 ('H', 5) = some "Failed" ∧
    (handle_record envGuestFails 5 emptySheet).2.2 ('N', 5) = emptySheet ('N', 5) ∧
    (handle_record envGuestFails 5 emptySheet).2.2 ('M', 5) = emptySheet ('M', 5) :=
  C1_guest_failure_marks_failed envGuestFails 5 emptySheet rfl rfl rfl

/-- C8: the claim says that for every run outcome the temporary
stealth-profile directory no longer exists once the run loop reaches
Closed.  When the profile file writes fail after `tempfile.mkdtemp`
(the `except` at `nusuk_bot.py` line 1764 catches and returns `None`
without recording `self.temp_dir`), the run completes, the driver is
released, but the created directory survives the cleanup:
`_cleanup_stealth_profile` removes nothing because the `temp_dir`
attribute was never set. -/
theorem C8_counterexample :
    (run_automation false 0 RunBody.normal initialBot).dirs = [0] ∧
    (run_automation false 0 RunBody.normal initialBot).driverOpen = false :=
  ⟨rfl, rfl⟩

/-- C8 (amended): provided the stealth-profile creation completed (the
directory was recorded in `self.temp_dir`), then for every run outcome
— normal completion or an exception caught at the run boundary — after
the run loop reaches Closed the browser session has been released and
the temporary profile directory no longer exists.  When creation fails
partway, the partially created directory is never recorded and
survives. -/
theorem C8_cleanup_on_close (d : Nat) (body : RunBody) (st : BotState)
    (h2 : d ∉ st.dirs) :
    (run_automation true d body st).driverOpen = false ∧
    d ∉ (run_automation true d body st).dirs := by
  have herase : (st.dirs ++ [d]).erase d = st.dirs := by
    rw [List.erase_append_right [d] h2]
    simp
  constructor
  · rfl
  · simp only [run_automation, setup_driver, _create_stealth_profile,
      _cleanup_stealth_profile, if_true]
    simp [herase, h2]

/-- C8 amended-claim witness: a successful profile creation (directory
1) on a fresh bot, normal body: after Closed the driver is released and
directory 1 is gone. -/
theorem C8_witness :
    (run_automation true 1 RunBody.normal initialBot).driverOpen = false ∧
    1 ∉ (run_automation true 1 RunBody.normal initialBot).dirs :=
  C8_cleanup_on_close 1 RunBody.normal initialBot (by decide)

/-- A string with no run of four consecutive digits does not start with
four digits. -/
theorem startsWithFour_false_of_hasRun4 (s : List Char) (h : hasRun4 s = false) :
    startsWithFourDigits s = false := by
  cases s with
  | nil => rfl
  | cons c t =>
    simp only [hasRun4, Bool.or_eq_false_iff] at h
    exact h.1

/-- The run-freeness predicate passes to the tail. -/
theorem hasRun4_tail (c : Char) (t : List Char) (h : hasRun4 (c :: t) = false) :
    hasRun4 t = false := by
  simp only [hasRun4, Bool.or_eq_false_iff] at h
  exact h.2

/-- If the first `k ≥ 4` characters exist and are all digits, the
string starts with four digits. -/
theorem startsWithFour_of_take (s : List Char) (k : Nat) (hk : 4 ≤ k)
    (h : (((s.take k).length == k) && (s.take k).all Char.isDigit) = true) :
    startsWithFourDigits s = true := by
  rw [Bool.and_eq_true, beq_iff_eq] at h
  obtain ⟨hlen, hall⟩ := h
  have hmin : min k s.length = k := by
    rw [← List.length_take k s]; exact hlen
  have hsk : k ≤ s.length := by
    cases Nat.le_total k s.length with
    | inl hle => exact hle
    | inr hge => rw [Nat.min_eq_right hge] at hmin; omega
  have htake : s.take 4 = (s.take k).take 4 := by
    rw [List.take_take, Nat.min_eq_left hk]
  unfold startsWithFourDigits
  rw [Bool.and_eq_true, beq_iff_eq]
  constructor
  · rw [List.length_take]
    exact Nat.min_eq_left (le_trans hk hsk)
  · rw [htake, List.all_eq_true]
    intro x hx
    exact List.all_eq_true.mp hall x (List.take_subset 4 (s.take k) hx)

/-- If the leading digit run has length at least four, the string
starts with four digits. -/
theorem startsWithFour_of_takeWhile (s : List Char)
    (h : 4 ≤ (s.takeWhile Char.isDigit).length) : startsWithFourDigits s = true := by
  obtain ⟨t, ht⟩ :=
    (List.takeWhile_prefix Char.isDigit : s.takeWhile Char.isDigit <+: s)
  have htake : s.take 4 = (s.takeWhile Char.isDigit).take 4 := by
    conv_lhs => rw [← ht]
    rw [List.take_append_eq_append_take, Nat.sub_eq_zero_of_le h]
    simp
  unfold startsWithFourDigits
  rw [Bool.and_eq_true, beq_iff_eq]
  constructor
  · rw [htake, List.length_take]
    exact Nat.min_eq_left h
  · rw [htake, List.all_eq_true]
    intro x hx
    exact List.mem_takeWhile_imp (List.take_subset 4 _ hx)

/-- On a run-free string, `\d{k}` with `k ≥ 4` cannot match at the
front. -/
theorem tryDigits_eq_none (s : List Char) (k : Nat) (hk : 4 ≤ k)
    (h : hasRun4 s = false) : tryDigits s k = none := by
  by_cases hc : (((s.take k).length == k) && (s.take k).all Char.isDigit) = true
  · have hsw := startsWithFour_of_take s k hk hc
    rw [startsWithFour_false_of_hasRun4 s h] at hsw
    exact absurd hsw (by simp)
  · simp only [Bool.not_eq_true] at hc
    simp only [tryDigits, hc, Bool.false_eq_true, if_false]

/-- On a run-free string, one backtracking step of pattern 1 fails. -/
theorem p1Try_eq_none (s : List Char) (k : Nat) (hk : 4 ≤ k)
    (h : hasRun4 s = false) : p1Try s k = none := by
  unfold p1Try
  rw [tryDigits_eq_none s k hk h]

/-- On a run-free string, pattern 1 cannot match at the front. -/
theorem matchP1At_eq_none (pw : Bool) (s : List Char) (h : hasRun4 s = false) :
    matchP1At pw s = none := by
  unfold matchP1At
  cases pw with
  | true => rfl
  | false =>
    rw [p1Try_eq_none s 6 (by omega) h, p1Try_eq_none s 5 (by omega) h,
      p1Try_eq_none s 4 (by omega) h]
    rfl

/-- On a run-free text, the pattern-1 search finds nothing. -/
theorem searchP1_eq_none (s : List Char) (pw : Bool) (h : hasRun4 s = false) :
    searchP1 pw s = none := by
  induction s generalizing pw with
  | nil => rfl
  | cons c t ih =>
    unfold searchP1
    rw [matchP1At_eq_none pw (c :: t) h]
    exact ih (isWordChar c) (hasRun4_tail c t h)

/-- Stripping a keyword keeps a string run-free (the rest is a suffix). -/
theorem stripKw_hasRun4 (kw : List Char) :
    ∀ (s rest : List Char), stripKw kw s = some rest → hasRun4 s = false →
      hasRun4 rest = false := by
  induction kw with
  | nil =>
    intro s rest hst h
    unfold stripKw at hst
    cases hst
    exact h
  | cons k ks ih =>
    intro s rest hst h
    cases s with
    | nil => exact absurd hst (by simp [stripKw])
    | cons c cs =>
      unfold stripKw at hst
      by_cases he : (k.toLower == c.toLower) = true
      · rw [if_pos he] at hst
        exact ih cs rest hst (hasRun4_tail c cs h)
      · simp only [Bool.not_eq_true] at he
        rw [he] at hst
        exact absurd hst (by simp)

/-- Dropping a class-character run keeps a string run-free (the rest is
a suffix). -/
theorem dropWhile_hasRun4 (p : Char → Bool) :
    ∀ s : List Char, hasRun4 s = false → hasRun4 (s.dropWhile p) = false := by
  intro s
  induction s with
  | nil => intro h; exact h
  | cons c t ih =>
    intro h
    rw [List.dropWhile_cons]
    by_cases hp : p c = true
    · rw [if_pos hp]
      exact ih (hasRun4_tail c t h)
    · simp only [Bool.not_eq_true] at hp
      rw [hp]
      simpa using h

/-- On a run-free string, the keyword patterns 2–4 cannot match at the
front. -/
theorem matchKwAt_eq_none (kw s : List Char) (h : hasRun4 s = false) :
    matchKwAt kw s = none := by
  unfold matchKwAt
  cases hst : stripKw kw s with
  | none => rfl
  | some rest =>
    have hr2 : hasRun4 (rest.dropWhile (fun c => (c == ':') || c.isWhitespace)) = false :=
      dropWhile_hasRun4 _ rest (stripKw_hasRun4 kw s rest hst h)
    have hlt : ¬ 4 ≤ (((rest.dropWhile
        (fun c => (c == ':') || c.isWhitespace)).takeWhile Char.isDigit).take 6).length := by
      intro hle
      have h6 : (((rest.dropWhile
          (fun c => (c == ':') || c.isWhitespace)).takeWhile Char.isDigit).take 6).length ≤
          ((rest.dropWhile
          (fun c => (c == ':') || c.isWhitespace)).takeWhile Char.isDigit).length := by
        rw [List.length_take]
        exact Nat.min_le_right 6 _
      have hsw := startsWithFour_of_takeWhile _ (le_trans hle h6)
      rw [startsWithFour_false_of_hasRun4 _ hr2] at hsw
      exact absurd hsw (by simp)
    simp [hlt]
    have hmin := List.length_take 6
      ((rest.dropWhile (fun c => (c == ':') || c.isWhitespace)).takeWhile Char.isDigit)
    omega

/-- On a run-free text, the keyword-pattern search finds nothing. -/
theorem searchKw_eq_none (kw : List Char) :
    ∀ s : List Char, hasRun4 s = false → searchKw kw s = none := by
  intro s
  induction s with
  | nil =>
    intro h
    unfold searchKw
    exact matchKwAt_eq_none kw [] h
  | cons c t ih =>
    intro h
    unfold searchKw
    rw [matchKwAt_eq_none kw (c :: t) h]
    exact ih (hasRun4_tail c t h)

/-- On a run-free string, pattern 5 cannot match at the front. -/
theorem matchP5At_eq_none (s : List Char) (h : hasRun4 s = false) :
    matchP5At s = none := by
  unfold matchP5At
  have hlt : ¬ 4 ≤ ((s.takeWhile Char.isDigit).take 6).length := by
    intro hle
    have h6 : ((s.takeWhile Char.isDigit).take 6).length ≤
        (s.takeWhile Char.isDigit).length := by
      rw [List.length_take]
      exact Nat.min_le_right 6 _
    have hsw := startsWithFour_of_takeWhile s (le_trans hle h6)
    rw [startsWithFour_false_of_hasRun4 s h] at hsw
    exact absurd hsw (by simp)
  rw [if_neg hlt]

/-- On a run-free text, the pattern-5 search finds nothing. -/
theorem searchP5_eq_none : ∀ s : List Char, hasRun4 s = false → searchP5 s = none := by
  intro s
  induction s with
  | nil => intro h; rfl
  | cons c t ih =>
    intro h
    unfold searchP5
    rw [matchP5At_eq_none (c :: t) h]
    exact ih (hasRun4_tail c t h)

/-- Whatever `extract_scan` returns passed the source's guard. -/
theorem extract_scan_some_check :
    ∀ (ps : List (List Char → Option (List Char))) (text m : List Char),
      extract_scan ps text = some m → otpCheck m = true := by
  intro ps
  induction ps with
  | nil => intro text m h; exact absurd h (by simp [extract_scan])
  | cons p ps ih =>
    intro text m h
    cases hp : p text with
    | none =>
      simp only [extract_scan, hp] at h
      exact ih text m h
    | some otp =>
      simp only [extract_scan, hp] at h
      by_cases hc : otpCheck otp = true
      · rw [if_pos hc] at h
        cases h
        exact hc
      · simp only [Bool.not_eq_true] at hc
        rw [hc] at h
        simp only [Bool.false_eq_true, if_false] at h
        exact ih text m h

/-- Whatever the Mail.tm message loop returns passed the guard. -/
theorem firstOtp_some_check :
    ∀ (msgs : List (List Char × List Char)) (m : List Char),
      firstOtp msgs = some m → otpCheck m = true := by
  intro msgs
  induction msgs with
  | nil => intro m h; exact absurd h (by simp [firstOtp])
  | cons th rest ih =>
    intro m h
    unfold firstOtp at h
    cases he : _extract_otp_from_text (th.1 ++ ' ' :: th.2) with
    | none =>
      rw [he] at h
      exact ih m h
    | some otp =>
      rw [he] at h
      cases h
      exact extract_scan_some_check otp_patterns _ m he

/-- C9: every value OTP extraction returns — from
`_extract_otp_from_text` directly, and hence from `get_otp` through the
Mail.tm message loop — is a string of decimal digits of length between
4 and 6; otherwise the result is none. -/
theorem C9_otp_result_shape :
    (∀ (text m : List Char), _extract_otp_from_text text = some m →
      m.all Char.isDigit = true ∧ 4 ≤ m.length ∧ m.length ≤ 6) ∧
    (∀ (usesMailtm : Bool) (msgs : List (List Char × List Char)) (m : List Char),
      get_otp usesMailtm msgs = some m →
      m.all Char.isDigit = true ∧ 4 ≤ m.length ∧ m.length ≤ 6) := by
  have hshape : ∀ m : List Char, otpCheck m = true →
      m.all Char.isDigit = true ∧ 4 ≤ m.length ∧ m.length ≤ 6 := by
    intro m hc
    unfold otpCheck at hc
    rw [Bool.and_eq_true, Bool.and_eq_true, decide_eq_true_eq, decide_eq_true_eq] at hc
    exact ⟨hc.2, hc.1.1, hc.1.2⟩
  constructor
  · intro text m h
    exact hshape m (extract_scan_some_check otp_patterns text m h)
  · intro usesMailtm msgs m h
    cases usesMailtm with
    | false => exact absurd h (by simp [get_otp])
    | true =>
      unfold get_otp _get_mailtm_otp at h
      exact hshape m (firstOtp_some_check (msgs.take 5) m (by simpa using h))

/-- C9 witness: the extraction on "Your code is 482913" returns
"482913", which the theorem certifies to be 4–6 decimal digits; and
`get_otp` on a Mail.tm inbox holding one message "code 1234" returns
"1234", certified likewise. -/
theorem C9_witness :
    (("482913".data).all Char.isDigit = true ∧
      4 ≤ ("482913".data).length ∧ ("482913".data).length ≤ 6) ∧
    (("1234".data).all Char.isDigit = true ∧
      4 ≤ ("1234".data).length ∧ ("1234".data).length ≤ 6) :=
  ⟨C9_otp_result_shape.1 ("Your code is 482913".data) ("482913".data) (by decide),
    C9_otp_result_shape.2 true [(("code 1234").data, [])] ("1234".data) (by decide)⟩

/-- C4: the claim says that on every input containing no digit run of
length 4 to 6 the extraction returns none.  The input "1234567" has a
single maximal digit run, of length 7 — no digit run of length 4–6 —
yet the extraction returns "123456": pattern 5 `(\d{4,6})` greedily
matches the first six digits inside the longer run (the word-boundary
pattern 1 correctly rejects it, but pattern 5 has no boundaries). -/
theorem C4_counterexample :
    ((digitRunLengths ("1234567".data)).all
      (fun n => decide (n < 4) || decide (6 < n))) = true ∧
    _extract_otp_from_text ("1234567".data) = some ("123456".data) := by
  constructor
  · decide
  · decide

/-- C4 (amended): OTP extraction applied to the body
"Your code is 482913" returns "482913"; and for every input containing
no run of four or more consecutive digits it returns none.  (Inputs
whose digit runs are all longer than six can still yield a six-digit
substring, so the run-length bound must be "at least 4", not "4 to
6".) -/
theorem C4_otp_extraction :
    _extract_otp_from_text ("Your code is 482913".data) = some ("482913".data) ∧
    ∀ text : List Char, hasRun4 text = false →
      _extract_otp_from_text text = none := by
  constructor
  · decide
  · intro text h
    have h1 : findP1 text = none := by
      unfold findP1
      exact searchP1_eq_none text false h
    have h2 : searchKw ("OTP".data) text = none := searchKw_eq_none _ text h
    have h3 : searchKw ("verification".data) text = none := searchKw_eq_none _ text h
    have h4 : searchKw ("code".data) text = none := searchKw_eq_none _ text h
    have h5 : searchP5 text = none := searchP5_eq_none text h
    simp [_extract_otp_from_text, otp_patterns, extract_scan, h1, h2, h3, h4, h5]

/-- C4 amended-claim witness: the positive body returns "482913", and
the digit-free input "no digits here" returns none. -/
theorem C4_witness :
    _extract_otp_from_text ("Your code is 482913".data) = some ("482913".data) ∧
    _extract_otp_from_text ("no digits here".data) = none :=
  ⟨C4_otp_extraction.1, C4_otp_extraction.2 ("no digits here".data) (by decide)⟩

end BookingAutomation
